import Mathlib

/-!
Verification of the statement-construction and execution engine of the
postgres-mcp repository (shallow embedding of
`src/postgres_mcp/database_operations/`: `crud_operations.py`,
`simple_crud.py`, `vector_operations.py`, `schema_operations.py`,
`data_types.py`).

Modelling conventions:
* Python runtime values are the inductive `Value`; a Python `dict` is an
  association list in insertion order (Python dicts preserve insertion
  order and have unique keys).
* float values appear only as their textual decimal rendering (Python
  `str(x)`), carried in `Value.real` / plain `String`s; no claim depends
  on float arithmetic.
* raising an exception is `Except.error msg` where `msg` is the Python
  `str(e)` of the exception; every `try ... except Exception` operation
  boundary is a `match` on the `Except` produced by the body.
* elapsed wall-clock time is not computable here: each public operation
  takes the measured elapsed milliseconds as an explicit argument
  `elapsed` and both the success and the failure result carry it.
* `psycopg.sql` composition (`SQL(...).format(Identifier ...)`) is
  rendered eagerly to the final SQL string: `Identifier(s)` renders as
  `sqlIdent s` (doubling embedded double quotes), a plain f-string
  `f'"{s}"'` renders as `pyIdent s` (no escaping).
-/

namespace PostgresMcp

/-- A Python runtime value as it flows through the builders. -/
inductive Value where
  | null
  | bool (b : Bool)
  | int (i : Int)
  | real (r : String)
  | str (s : String)
  | list (elems : List Value)
  | dict (fields : List (String × Value))

mutual

/-- Python `repr` of a value (used by `str` on containers). -/
def pyRepr : Value → String
  | .null => "None"
  | .bool b => if b then "True" else "False"
  | .int i => toString i
  | .real r => r
  | .str s => "\x27" ++ s ++ "\x27"
  | .list vs => "[" ++ String.intercalate ", " (pyReprList vs) ++ "]"
  | .dict fs => "\x7b" ++ String.intercalate ", " (pyReprFields fs) ++ "\x7d"

/-- `repr` of each element of a Python list. -/
def pyReprList : List Value → List String
  | [] => []
  | v :: vs => pyRepr v :: pyReprList vs

/-- `repr` of each `key: value` entry of a Python dict. -/
def pyReprFields : List (String × Value) → List String
  | [] => []
  | (k, v) :: fs => ("\x27" ++ k ++ "\x27: " ++ pyRepr v) :: pyReprFields fs

end

/-- Python `str` of a value, as interpolated by an f-string. -/
def pyStr : Value → String
  | .str s => s
  | v => pyRepr v

/-- Escape a string for a JSON string literal (backslash and quote, as
`json.dumps` does for these inputs). -/
def jsonEscape (s : String) : String :=
  String.join (s.data.map fun c =>
    if c = '\\' then "\\\\" else if c = '"' then "\\\"" else String.mk [c])

mutual

/-- Python `json.dumps` with its default separators. -/
def jsonDumps : Value → String
  | .null => "null"
  | .bool b => if b then "true" else "false"
  | .int i => toString i
  | .real r => r
  | .str s => "\"" ++ jsonEscape s ++ "\""
  | .list vs => "[" ++ String.intercalate ", " (jsonDumpsList vs) ++ "]"
  | .dict fs => "\x7b" ++ String.intercalate ", " (jsonDumpsFields fs) ++ "\x7d"

/-- `json.dumps` of each element of a list. -/
def jsonDumpsList : List Value → List String
  | [] => []
  | v :: vs => jsonDumps v :: jsonDumpsList vs

/-- `json.dumps` of each `"key": value` entry of a dict. -/
def jsonDumpsFields : List (String × Value) → List String
  | [] => []
  | (k, v) :: fs => ("\"" ++ jsonEscape k ++ "\": " ++ jsonDumps v) :: jsonDumpsFields fs

end

/-- ASCII uppercase of one character (Python `str.upper` restricted to
the ASCII operators and connectives this code upcases). -/
def charUpper (c : Char) : Char :=
  if 97 ≤ c.toNat ∧ c.toNat ≤ 122 then Char.ofNat (c.toNat - 32) else c

/-- ASCII `str.upper`. -/
def strUpper (s : String) : String := String.mk (s.data.map charUpper)

/-- ASCII lowercase of one character. -/
def charLower (c : Char) : Char :=
  if 65 ≤ c.toNat ∧ c.toNat ≤ 90 then Char.ofNat (c.toNat + 32) else c

/-- ASCII `str.lower`. -/
def strLower (s : String) : String := String.mk (s.data.map charLower)

/-- Double every embedded double quote. -/
def escapeQuotes (s : String) : String :=
  String.join (s.data.map fun c => if c = '"' then "\"\"" else String.mk [c])

/-- The f-string identifier pattern of the simple builders. -/
def pyIdent (s : String) : String := "\"" ++ s ++ "\""

/-- `psycopg.sql.Identifier` rendering: embedded double quotes doubled. -/
def sqlIdent (s : String) : String := "\"" ++ escapeQuotes s ++ "\""

/-- A Python dict of row cells: ordered column-name/value pairs. -/
abbrev Cells := List (String × Value)

/-- One row returned by the driver (`RowResult` with its `cells` dict). -/
structure Row where
  cells : Cells

/-- Modelled from the spec: the sole external collaborator, an
`execute(statement, parameters) -> rows` operation that either returns
the ordered row set or raises (`src/postgres_mcp/sql/sql_driver.py` is
not part of the sources; section 6 of the specification pins its
interface). A statement producing no row set yields the empty list. -/
abbrev Driver := String → List Value → Except String (List Row)

/-- Python `dict.get(key)`: first binding, `None` when absent. -/
def pyGet (row : Cells) (key : String) : Value :=
  match row.lookup key with
  | some v => v
  | none => .null

/-- `OperationType` enumeration of `data_types.py`. -/
inductive OperationType where
  | select | insert | update | delete | create | drop | alter
deriving Repr, DecidableEq

/-- `DataType` enumeration of `data_types.py`. -/
inductive DataType where
  | integer | bigint | serial | bigserial | text | varchar | char
  | boolean | timestamp | timestamptz | date | time | json | jsonb
  | uuid | vector | decimal | numeric | real | double_precision
deriving Repr, DecidableEq

/-- The literal string value of each `DataType` enum member. -/
def DataType.value : DataType → String
  | .integer => "integer"
  | .bigint => "bigint"
  | .serial => "serial"
  | .bigserial => "bigserial"
  | .text => "text"
  | .varchar => "varchar"
  | .char => "char"
  | .boolean => "boolean"
  | .timestamp => "timestamp"
  | .timestamptz => "timestamptz"
  | .date => "date"
  | .time => "time"
  | .json => "json"
  | .jsonb => "jsonb"
  | .uuid => "uuid"
  | .vector => "vector"
  | .decimal => "decimal"
  | .numeric => "numeric"
  | .real => "real"
  | .double_precision => "double precision"

/-- `ColumnDefinition` of `data_types.py`. -/
structure ColumnDefinition where
  name : String
  data_type : DataType
  nullable : Bool := true
  default : Option Value := none
  primary_key : Bool := false
  unique : Bool := false
  check_constraint : Option String := none
  vector_dimensions : Option Nat := none

/-- `TableDefinition` of `data_types.py` (the advisory `indexes` field is
never read by any builder and is omitted). -/
structure TableDefinition where
  name : String
  columns : List ColumnDefinition
  schema : String := "public"
  constraints : List String := []

/-- `QueryCondition` of `data_types.py`. -/
structure QueryCondition where
  column : String
  operator : String
  value : Value
  logical_operator : String := "AND"

/-- One `{column, direction}` sort spec of `QueryOptions.order_by`;
`direction` is `dict.get("direction", "ASC")`. -/
structure OrderSpec where
  column : String
  direction : Option String := none

/-- `QueryOptions` of `data_types.py`; `__post_init__` replaces `None`
collections by empty ones, so the list fields default to `[]`. -/
structure QueryOptions where
  limit : Option Int := none
  offset : Option Int := none
  order_by : List OrderSpec := []
  group_by : List String := []
  having : List QueryCondition := []

/-- `VectorSearchOptions` of `data_types.py`; the query vector and the
threshold are carried as their decimal renderings. -/
structure VectorSearchOptions where
  vector : List String
  distance_function : String := "cosine"
  limit : Int := 10
  threshold : Option String := none
  include_distance : Bool := true

/-- `OperationResult` of `data_types.py` (`__post_init__` turns a `None`
`returned_data` into `[]`). -/
structure OperationResult where
  success : Bool
  message : String
  operation_type : OperationType
  table_name : String
  execution_time_ms : Option Nat := none
  affected_rows : Option Nat := none
  returned_data : List Cells := []

/-- `QueryResult` of `data_types.py` (`__post_init__` turns a `None`
`columns` into `[]`). -/
structure QueryResult where
  success : Bool
  message : String
  data : List Cells
  execution_time_ms : Option Nat := none
  affected_rows : Option Nat := none
  total_count : Option Nat := none
  columns : List String := []

/-- `_format_data_type` (identical in `CrudOperations`,
`SimpleCrudOperations` and `VectorOperations`). -/
def formatDataType (column : ColumnDefinition) : Except String String :=
  if column.data_type = DataType.vector then
    match column.vector_dimensions with
    | none =>
        .error ("Vector column " ++ column.name ++ " must specify vector_dimensions")
    | some n => .ok ("vector(" ++ toString n ++ ")")
  else if column.data_type = DataType.varchar ∨ column.data_type = DataType.char then
    .ok (column.data_type.value ++ "(255)")
  else if column.data_type = DataType.decimal ∨ column.data_type = DataType.numeric then
    .ok (column.data_type.value ++ "(10,2)")
  else
    .ok column.data_type.value

/-- The `special_functions` list of `simple_crud.create_table` and
`vector_operations.create_vector_table`. -/
def specialFunctions : List String :=
  ["CURRENT_TIMESTAMP", "CURRENT_DATE", "CURRENT_TIME", "NOW()", "UUID_GENERATE_V4()"]

/-- The `DEFAULT` fragment of the simple/vector builders: a string not in
`special_functions` is single-quoted, a special function or a non-string
value is interpolated raw. -/
def renderDefaultSimple (v : Value) : String :=
  match v with
  | .str s =>
      if ¬ specialFunctions.contains s then " DEFAULT \x27" ++ s ++ "\x27"
      else " DEFAULT " ++ s
  | _ => " DEFAULT " ++ pyStr v

/-- The `DEFAULT` fragment of `CrudOperations._build_create_table_sql`:
every string default is single-quoted, with no special-function list. -/
def renderDefaultCrud (v : Value) : String :=
  match v with
  | .str s => " DEFAULT \x27" ++ s ++ "\x27"
  | _ => " DEFAULT " ++ pyStr v

/-- One column clause of `simple_crud.create_table` (the loop body is the
same in `vector_operations.create_vector_table`); the sequential `let`s
mirror the `col_def +=` appends. -/
def simpleColumnClause (col : ColumnDefinition) : Except String String :=
  match formatDataType col with
  | .error e => .error e
  | .ok t =>
    let colDef := pyIdent col.name ++ " " ++ t
    let colDef := if ¬ col.nullable then colDef ++ " NOT NULL" else colDef
    let colDef :=
      match col.default with
      | some v => colDef ++ renderDefaultSimple v
      | none => colDef
    let colDef := if col.primary_key then colDef ++ " PRIMARY KEY" else colDef
    let colDef := if col.unique && ¬ col.primary_key then colDef ++ " UNIQUE" else colDef
    let colDef :=
      match col.check_constraint with
      | some c => colDef ++ " CHECK (" ++ c ++ ")"
      | none => colDef
    .ok colDef

/-- One column clause of `CrudOperations._build_create_table_sql`. -/
def crudColumnClause (col : ColumnDefinition) : Except String String :=
  match formatDataType col with
  | .error e => .error e
  | .ok t =>
    let colDef := pyIdent col.name ++ " " ++ t
    let colDef := if ¬ col.nullable then colDef ++ " NOT NULL" else colDef
    let colDef :=
      match col.default with
      | some v => colDef ++ renderDefaultCrud v
      | none => colDef
    let colDef := if col.primary_key then colDef ++ " PRIMARY KEY" else colDef
    let colDef := if col.unique && ¬ col.primary_key then colDef ++ " UNIQUE" else colDef
    let colDef :=
      match col.check_constraint with
      | some c => colDef ++ " CHECK (" ++ c ++ ")"
      | none => colDef
    .ok colDef

/-- `CREATE TABLE` text shared shape: column clauses, then table-level
constraints, joined and wrapped. -/
def createTableText (tdef : TableDefinition) (columnDefs : List String) : String :=
  let columnDefs := columnDefs ++ tdef.constraints
  "CREATE TABLE " ++ pyIdent tdef.schema ++ "." ++ pyIdent tdef.name ++ " (" ++
    String.intercalate ", " columnDefs ++ ")"

/-- `simple_crud.create_table` statement construction. -/
def simpleCreateTableSql (tdef : TableDefinition) : Except String String := do
  let columnDefs ← tdef.columns.mapM simpleColumnClause
  return createTableText tdef columnDefs

/-- `CrudOperations._build_create_table_sql`. -/
def crudCreateTableSql (tdef : TableDefinition) : Except String String := do
  let columnDefs ← tdef.columns.mapM crudColumnClause
  return createTableText tdef columnDefs

/-- One condition of the WHERE/HAVING compiler, parameterized by the
identifier renderer (`sqlIdent` in `CrudOperations._build_where_clause`,
`pyIdent` in the inline loops of `simple_crud`): the emitted clause and
the parameters it contributes. -/
def conditionClauseWith (q : String → String) (c : QueryCondition) :
    Except String (String × List Value) :=
  let opU := strUpper c.operator
  if opU = "IS NULL" ∨ opU = "IS NOT NULL" then
    .ok (q c.column ++ " " ++ opU, [])
  else if opU = "IN" ∨ opU = "NOT IN" then
    match c.value with
    | .list vs =>
        let placeholders := String.intercalate ", " (vs.map fun _ => "%s")
        .ok (q c.column ++ " " ++ opU ++ " (" ++ placeholders ++ ")", vs)
    | _ => .error ("Value for " ++ c.operator ++ " must be a list or tuple")
  else
    .ok (q c.column ++ " " ++ c.operator ++ " %s", [c.value])

/-- The condition loop for indices `i > 0`: each clause is preceded by
`" <LOGICAL_OP> "` taken from the condition handled just before it
(`conditions[i-1].logical_operator.upper()`), threaded here as `prev`. -/
def wherePartsAux (q : String → String) (prev : QueryCondition) :
    List QueryCondition → Except String (List String × List Value)
  | [] => .ok ([], [])
  | c :: rest =>
    match conditionClauseWith q c with
    | .error e => .error e
    | .ok (cl, ps) =>
      match wherePartsAux q c rest with
      | .error e => .error e
      | .ok (tailParts, tailParams) =>
          .ok ((" " ++ strUpper prev.logical_operator ++ " ") :: cl :: tailParts,
            ps ++ tailParams)

/-- The full condition loop: the emitted text pieces (clauses interleaved
with logical-operator separators, in emission order) and the positional
parameter list. -/
def wherePartsWith (q : String → String) :
    List QueryCondition → Except String (List String × List Value)
  | [] => .ok ([], [])
  | c :: rest =>
    match conditionClauseWith q c with
    | .error e => .error e
    | .ok (cl, ps) =>
      match wherePartsAux q c rest with
      | .error e => .error e
      | .ok (tailParts, tailParams) => .ok (cl :: tailParts, ps ++ tailParams)

/-- `CrudOperations._build_where_clause`: `None` for an empty condition
list, otherwise the joined fragment and the parameters. -/
def buildWhereClause (conds : List QueryCondition) :
    Except String (Option String × List Value) :=
  if conds.isEmpty then .ok (none, [])
  else
    match wherePartsWith sqlIdent conds with
    | .error e => .error e
    | .ok (parts, params) => .ok (some (String.join parts), params)

/-- Parameter count one condition is specified to contribute: none for a
NULL check, the sequence length for IN/NOT IN, one otherwise. -/
def conditionParamCount (c : QueryCondition) : Nat :=
  let opU := strUpper c.operator
  if opU = "IS NULL" ∨ opU = "IS NOT NULL" then 0
  else if opU = "IN" ∨ opU = "NOT IN" then
    match c.value with
    | .list vs => vs.length
    | _ => 0
  else 1

/-- `_build_insert_sql` of `CrudOperations` (the inline construction of
`simple_crud.insert_records` and `insert_vector_data` builds the same
statement): column set from the first record's key set, one `%s` per
column, optional `RETURNING`. Fails on an empty payload. -/
def buildInsertSql (table_name : String) (data : List Cells) (schema : String)
    (returning_columns : List String) : Except String (String × List (List Value)) :=
  if data.isEmpty then .error "No data provided for insert"
  else
    let columns := (data.headD []).map Prod.fst
    let placeholders := String.intercalate ", " (columns.map fun _ => "%s")
    let quotedColumns := String.intercalate ", " (columns.map pyIdent)
    let sql := "INSERT INTO " ++ pyIdent schema ++ "." ++ pyIdent table_name ++
      " (" ++ quotedColumns ++ ") VALUES (" ++ placeholders ++ ")"
    let sql :=
      if ¬ returning_columns.isEmpty then
        sql ++ " RETURNING " ++
          String.intercalate ", " (returning_columns.map pyIdent)
      else sql
    let params := data.map fun row => columns.map fun col => pyGet row col
    .ok (sql, params)

/-- `CrudOperations._build_update_sql` rendered to its final text. -/
def buildUpdateSql (table_name : String) (data : Cells)
    (conditions : List QueryCondition) (schema : String)
    (returning_columns : List String) : Except String (String × List Value) :=
  if data.isEmpty then .error "No data provided for update"
  else
    let setClauses := data.map fun kv => sqlIdent kv.1 ++ " = %s"
    let params := data.map Prod.snd
    match buildWhereClause conditions with
    | .error e => .error e
    | .ok (whereClauses, whereParams) =>
      let params := params ++ whereParams
      let sql := "UPDATE " ++ sqlIdent schema ++ "." ++ sqlIdent table_name ++
        " SET " ++ String.intercalate ", " setClauses
      let sql :=
        match whereClauses with
        | some w => sql ++ " WHERE " ++ w
        | none => sql
      let sql :=
        if ¬ returning_columns.isEmpty then
          sql ++ " RETURNING " ++
            String.intercalate ", " (returning_columns.map sqlIdent)
        else sql
      .ok (sql, params)

/-- `CrudOperations._build_delete_sql` rendered to its final text. -/
def buildDeleteSql (table_name : String) (conditions : List QueryCondition)
    (schema : String) (returning_columns : List String) :
    Except String (String × List Value) :=
  match buildWhereClause conditions with
  | .error e => .error e
  | .ok (whereClauses, params) =>
    let sql := "DELETE FROM " ++ sqlIdent schema ++ "." ++ sqlIdent table_name
    let sql :=
      match whereClauses with
      | some w => sql ++ " WHERE " ++ w
      | none => sql
    let sql :=
      if ¬ returning_columns.isEmpty then
        sql ++ " RETURNING " ++
          String.intercalate ", " (returning_columns.map sqlIdent)
      else sql
    .ok (sql, params)

/-- `CrudOperations._build_select_sql` rendered to its final text: `*` or
an explicit projection, WHERE and HAVING through the condition compiler,
GROUP BY, ORDER BY, and `LIMIT %s` / `OFFSET %s` with the values in the
parameter list (a `limit`/`offset` of `0` is falsy and skipped). -/
def buildSelectSql (table_name : String) (columns : List String)
    (conditions : List QueryCondition) (options : Option QueryOptions)
    (schema : String) : Except String (String × List Value) := do
  let selectColumns :=
    if ¬ columns.isEmpty then String.intercalate ", " (columns.map sqlIdent)
    else "*"
  let mut sql := "SELECT " ++ selectColumns ++ " FROM " ++ sqlIdent schema ++
    "." ++ sqlIdent table_name
  let mut params : List Value := []
  if ¬ conditions.isEmpty then
    let (whereClauses, whereParams) ← buildWhereClause conditions
    if let some w := whereClauses then
      sql := sql ++ " WHERE " ++ w
      params := params ++ whereParams
  if let some opts := options then
    if ¬ opts.group_by.isEmpty then
      sql := sql ++ " GROUP BY " ++
        String.intercalate ", " (opts.group_by.map sqlIdent)
    if ¬ opts.having.isEmpty then
      let (havingClauses, havingParams) ← buildWhereClause opts.having
      if let some h := havingClauses then
        sql := sql ++ " HAVING " ++ h
        params := params ++ havingParams
    if ¬ opts.order_by.isEmpty then
      let orderClauses := opts.order_by.map fun o =>
        sqlIdent o.column ++ " " ++ strUpper (o.direction.getD "ASC")
      sql := sql ++ " ORDER BY " ++ String.intercalate ", " orderClauses
    if let some n := opts.limit then
      if n ≠ 0 then
        sql := sql ++ " LIMIT %s"
        params := params ++ [Value.int n]
    if let some n := opts.offset then
      if n ≠ 0 then
        sql := sql ++ " OFFSET %s"
        params := params ++ [Value.int n]
  return (sql, params)

/-- The statement built inline by `simple_crud.query_records`: f-string
identifiers, WHERE through the same condition loop, ORDER BY, and LIMIT
and OFFSET interpolated as decimal text directly into the SQL. -/
def simpleQuerySql (table_name : String) (columns : List String)
    (conditions : List QueryCondition) (options : Option QueryOptions)
    (schema : String) : Except String (String × List Value) := do
  let selectColumns :=
    if ¬ columns.isEmpty then String.intercalate ", " (columns.map pyIdent)
    else "*"
  let mut sql := "SELECT " ++ selectColumns ++ " FROM " ++ pyIdent schema ++
    "." ++ pyIdent table_name
  let mut params : List Value := []
  if ¬ conditions.isEmpty then
    let (whereParts, whereParams) ← wherePartsWith pyIdent conditions
    params := params ++ whereParams
    if ¬ whereParts.isEmpty then
      sql := sql ++ " WHERE " ++ String.join whereParts
  if let some opts := options then
    if ¬ opts.order_by.isEmpty then
      let orderParts := opts.order_by.map fun o =>
        pyIdent o.column ++ " " ++ strUpper (o.direction.getD "ASC")
      sql := sql ++ " ORDER BY " ++ String.intercalate ", " orderParts
    if let some n := opts.limit then
      if n ≠ 0 then
        sql := sql ++ " LIMIT " ++ toString n
    if let some n := opts.offset then
      if n ≠ 0 then
        sql := sql ++ " OFFSET " ++ toString n
  return (sql, params)

/-- `VectorOperations._get_distance_expression`: the pgvector distance
term over the bracketed vector literal (components joined by `","`). -/
def getDistanceExpression (vector_column : String) (search_vector : List String)
    (distance_function : String) : Except String String :=
  let vector_str := "[" ++ String.intercalate "," search_vector ++ "]"
  if distance_function = "cosine" then
    .ok (pyIdent vector_column ++ " <=> \x27" ++ vector_str ++ "\x27::vector")
  else if distance_function = "euclidean" then
    .ok (pyIdent vector_column ++ " <-> \x27" ++ vector_str ++ "\x27::vector")
  else if distance_function = "inner_product" then
    .ok (pyIdent vector_column ++ " <#> \x27" ++ vector_str ++ "\x27::vector")
  else
    .error ("Unsupported distance function: " ++ distance_function)

/-- The statement built by `vector_similarity_search` before execution.
`distance_expr` is a Python local assigned only inside the
`include_distance` branch; line 162 reads it unconditionally, so with
`include_distance=False` the read raises `UnboundLocalError` (modelled
with the CPython message). The `LIMIT` value is interpolated as text. -/
def vectorSimilaritySearchSql (table_name schema vector_column : String)
    (search_options : Option VectorSearchOptions)
    (additional_columns : List String) : Except String (String × List Value) := do
  let some so := search_options
    | throw "search_options is required for vector similarity search"
  let mut selectColumns := ["id"]
  if ¬ additional_columns.isEmpty then
    selectColumns := selectColumns ++ additional_columns
  let mut distanceExpr : Option String := none
  if so.include_distance then
    let e ← getDistanceExpression vector_column so.vector so.distance_function
    distanceExpr := some e
    selectColumns := selectColumns ++ [e ++ " AS distance"]
  let some dexpr := distanceExpr
    | throw "cannot access local variable \x27distance_expr\x27 where it is not associated with a value"
  let selectSql := String.intercalate ", " (selectColumns.map fun col =>
    if col ≠ dexpr ++ " AS distance" then pyIdent col else col)
  let mut sql := "SELECT " ++ selectSql ++ " FROM " ++ pyIdent schema ++ "." ++
    pyIdent table_name
  let mut params : List Value := []
  if let some t := so.threshold then
    let e2 ← getDistanceExpression vector_column so.vector so.distance_function
    sql := sql ++ " WHERE " ++ e2 ++ " < %s"
    params := params ++ [Value.real t]
  let e3 ← getDistanceExpression vector_column so.vector so.distance_function
  sql := sql ++ " ORDER BY " ++ e3
  if so.limit ≠ 0 then
    sql := sql ++ " LIMIT " ++ toString so.limit
  return (sql, params)

/-- Python `dict.update`: existing keys are overwritten in place, new
keys are appended in iteration order (association lists here carry
unique keys). -/
def dictUpdate (base updates : List (String × Value)) : List (String × Value) :=
  (base.map fun kv =>
    match updates.lookup kv.1 with
    | some v => (kv.1, v)
    | none => kv) ++
  updates.filter fun kv => (base.lookup kv.1).isNone

/-- The statement built by `create_vector_index`: auto-generated name
`idx_<table>_<column>_<method>` when none is given, HNSW defaults
`m = 16, ef_construction = 64` merged with caller options, `WITH (...)`
emitted only for the `hnsw` method. -/
def createVectorIndexSql (table_name schema vector_column : String)
    (index_name : Option String) (index_type : String)
    (index_options : List (String × Value)) : String :=
  let indexName :=
    match index_name with
    | some n => n
    | none => "idx_" ++ table_name ++ "_" ++ vector_column ++ "_" ++ index_type
  let defaultOptions : List (String × Value) :=
    [("m", .int 16), ("ef_construction", .int 64)]
  let defaultOptions :=
    if ¬ index_options.isEmpty then dictUpdate defaultOptions index_options
    else defaultOptions
  let sqlParts := ["CREATE INDEX", pyIdent indexName, "ON",
    pyIdent schema ++ "." ++ pyIdent table_name, "USING", index_type,
    "(" ++ pyIdent vector_column ++ ")"]
  let sqlParts :=
    if strLower index_type = "hnsw" && ¬ defaultOptions.isEmpty then
      let withOptions := defaultOptions.map fun kv => kv.1 ++ " = " ++ pyStr kv.2
      if ¬ withOptions.isEmpty then
        sqlParts ++ ["WITH", "(" ++ String.intercalate ", " withOptions ++ ")"]
      else sqlParts
    else sqlParts
  String.intercalate " " sqlParts

/-- The column-name list of the first returned row (`list(data[0].keys())
if data else []`). -/
def headKeys (data : List Cells) : List String :=
  match data with
  | [] => []
  | r :: _ => r.map Prod.fst

/-- Message of the `AttributeError` raised by `sql.as_string(...)` in
`CrudOperations.insert_records`: `_build_insert_sql` returns a plain
Python `str`, and `str` has no `as_string` method. -/
def strAsStringError : String :=
  "\x27str\x27 object has no attribute \x27as_string\x27"

/-- The `try` block of `simple_crud.create_table`. -/
def simpleCreateTableBody (d : Driver) (tdef : TableDefinition) :
    Except String Unit := do
  let sql ← simpleCreateTableSql tdef
  let _ ← d sql []
  return ()

/-- `SimpleCrudOperations.create_table`. -/
def simpleCreateTable (d : Driver) (elapsed : Nat) (tdef : TableDefinition) :
    OperationResult :=
  match simpleCreateTableBody d tdef with
  | .ok _ =>
    { success := true
      message := "Table " ++ tdef.schema ++ "." ++ tdef.name ++ " created successfully"
      operation_type := .create
      table_name := tdef.schema ++ "." ++ tdef.name
      execution_time_ms := some elapsed }
  | .error e =>
    { success := false
      message := "Failed to create table: " ++ e
      operation_type := .create
      table_name := tdef.schema ++ "." ++ tdef.name
      execution_time_ms := some elapsed }

/-- The `try` block of `CrudOperations.create_table`. -/
def crudCreateTableBody (d : Driver) (tdef : TableDefinition) :
    Except String Unit := do
  let sql ← crudCreateTableSql tdef
  let _ ← d sql []
  return ()

/-- `CrudOperations.create_table`. -/
def crudCreateTable (d : Driver) (elapsed : Nat) (tdef : TableDefinition) :
    OperationResult :=
  match crudCreateTableBody d tdef with
  | .ok _ =>
    { success := true
      message := "Table " ++ tdef.schema ++ "." ++ tdef.name ++ " created successfully"
      operation_type := .create
      table_name := tdef.schema ++ "." ++ tdef.name
      execution_time_ms := some elapsed }
  | .error e =>
    { success := false
      message := "Failed to create table: " ++ e
      operation_type := .create
      table_name := tdef.schema ++ "." ++ tdef.name
      execution_time_ms := some elapsed }

/-- The `try` block of `simple_crud.insert_records`: one parameterized
INSERT per record (dict/list values through `json.dumps`); rows returned
by an execution are appended to `returned_data` when RETURNING was
requested; `affected_rows` counts completed executions. -/
def simpleInsertRecordsBody (d : Driver) (table_name : String) (data : List Cells)
    (schema : String) (returning_columns : List String) :
    Except String (List Cells × Nat) := do
  let (sql, _) ← buildInsertSql table_name data schema returning_columns
  let columns := (data.headD []).map Prod.fst
  let mut returnedData : List Cells := []
  let mut affectedRows : Nat := 0
  for row in data do
    let params := columns.map fun col =>
      let value := pyGet row col
      match value with
      | .dict _ => Value.str (jsonDumps value)
      | .list _ => Value.str (jsonDumps value)
      | _ => value
    let result ← d sql params
    affectedRows := affectedRows + 1
    if ¬ result.isEmpty && ¬ returning_columns.isEmpty then
      returnedData := returnedData ++ result.map Row.cells
  return (returnedData, affectedRows)

/-- `SimpleCrudOperations.insert_records`. -/
def simpleInsertRecords (d : Driver) (elapsed : Nat) (table_name : String)
    (data : List Cells) (schema : String) (returning_columns : List String) :
    OperationResult :=
  match simpleInsertRecordsBody d table_name data schema returning_columns with
  | .ok (returnedData, affectedRows) =>
    { success := true
      message := "Successfully inserted " ++ toString affectedRows ++
        " record(s) into " ++ schema ++ "." ++ table_name
      operation_type := .insert
      table_name := schema ++ "." ++ table_name
      affected_rows := some affectedRows
      execution_time_ms := some elapsed
      returned_data := returnedData }
  | .error e =>
    { success := false
      message := "Failed to insert records: " ++ e
      operation_type := .insert
      table_name := schema ++ "." ++ table_name
      execution_time_ms := some elapsed }

/-- The `try` block of `CrudOperations.insert_records`: both the
single-record and the batch branch call `sql.as_string(...)` on the plain
`str` returned by `_build_insert_sql`, so the body always raises the
`AttributeError` before any statement reaches the driver (the rest of the
branch is unreachable). -/
def crudInsertRecordsBody (d : Driver) (table_name : String) (data : List Cells)
    (schema : String) (returning_columns : List String) :
    Except String (List Cells) := do
  let _ := d
  if data.length = 1 then
    let (_sql, _params) ← buildInsertSql table_name data schema returning_columns
    throw strAsStringError
  else
    let (_sql, _allParams) ← buildInsertSql table_name data schema returning_columns
    throw strAsStringError

/-- `CrudOperations.insert_records` (the success branch mirrors the
source but is unreachable: the body always raises). -/
def crudInsertRecords (d : Driver) (elapsed : Nat) (table_name : String)
    (data : List Cells) (schema : String) (returning_columns : List String) :
    OperationResult :=
  match crudInsertRecordsBody d table_name data schema returning_columns with
  | .ok returnedData =>
    { success := true
      message := "Successfully inserted " ++ toString data.length ++
        " record(s) into " ++ schema ++ "." ++ table_name
      operation_type := .insert
      table_name := schema ++ "." ++ table_name
      affected_rows := some data.length
      execution_time_ms := some elapsed
      returned_data := returnedData }
  | .error e =>
    { success := false
      message := "Failed to insert records: " ++ e
      operation_type := .insert
      table_name := schema ++ "." ++ table_name
      execution_time_ms := some elapsed }

/-- The `try` block of `CrudOperations.update_records`. -/
def crudUpdateRecordsBody (d : Driver) (table_name : String) (data : Cells)
    (conditions : List QueryCondition) (schema : String)
    (returning_columns : List String) : Except String (List Row) := do
  let (sql, params) ← buildUpdateSql table_name data conditions schema returning_columns
  d sql params

/-- `CrudOperations.update_records`: `affected_rows` is the length of the
row set the driver returned (`len(result) if result else 0`). -/
def crudUpdateRecords (d : Driver) (elapsed : Nat) (table_name : String)
    (data : Cells) (conditions : List QueryCondition) (schema : String)
    (returning_columns : List String) : OperationResult :=
  match crudUpdateRecordsBody d table_name data conditions schema returning_columns with
  | .ok result =>
    { success := true
      message := "Successfully updated " ++ toString result.length ++
        " record(s) in " ++ schema ++ "." ++ table_name
      operation_type := .update
      table_name := schema ++ "." ++ table_name
      affected_rows := some result.length
      execution_time_ms := some elapsed
      returned_data := result.map Row.cells }
  | .error e =>
    { success := false
      message := "Failed to update records: " ++ e
      operation_type := .update
      table_name := schema ++ "." ++ table_name
      execution_time_ms := some elapsed }

/-- The `try` block of `CrudOperations.delete_records`. -/
def crudDeleteRecordsBody (d : Driver) (table_name : String)
    (conditions : List QueryCondition) (schema : String)
    (returning_columns : List String) : Except String (List Row) := do
  let (sql, params) ← buildDeleteSql table_name conditions schema returning_columns
  d sql params

/-- `CrudOperations.delete_records`. -/
def crudDeleteRecords (d : Driver) (elapsed : Nat) (table_name : String)
    (conditions : List QueryCondition) (schema : String)
    (returning_columns : List String) : OperationResult :=
  match crudDeleteRecordsBody d table_name conditions schema returning_columns with
  | .ok result =>
    { success := true
      message := "Successfully deleted " ++ toString result.length ++
        " record(s) from " ++ schema ++ "." ++ table_name
      operation_type := .delete
      table_name := schema ++ "." ++ table_name
      affected_rows := some result.length
      execution_time_ms := some elapsed
      returned_data := result.map Row.cells }
  | .error e =>
    { success := false
      message := "Failed to delete records: " ++ e
      operation_type := .delete
      table_name := schema ++ "." ++ table_name
      execution_time_ms := some elapsed }

/-- The `try` block of `CrudOperations.query_records`. -/
def crudQueryRecordsBody (d : Driver) (table_name : String) (columns : List String)
    (conditions : List QueryCondition) (options : Option QueryOptions)
    (schema : String) : Except String (List Row) := do
  let (sql, params) ← buildSelectSql table_name columns conditions options schema
  d sql params

/-- `CrudOperations.query_records`. -/
def crudQueryRecords (d : Driver) (elapsed : Nat) (table_name : String)
    (columns : List String) (conditions : List QueryCondition)
    (options : Option QueryOptions) (schema : String) : QueryResult :=
  match crudQueryRecordsBody d table_name columns conditions options schema with
  | .ok result =>
    let data := result.map Row.cells
    { success := true
      message := "Successfully queried " ++ toString data.length ++
        " record(s) from " ++ schema ++ "." ++ table_name
      data := data
      columns := headKeys data
      total_count := some data.length
      execution_time_ms := some elapsed }
  | .error e =>
    { success := false
      message := "Failed to query records: " ++ e
      data := []
      execution_time_ms := some elapsed }

/-- The `try` block of `simple_crud.query_records`. -/
def simpleQueryRecordsBody (d : Driver) (table_name : String) (columns : List String)
    (conditions : List QueryCondition) (options : Option QueryOptions)
    (schema : String) : Except String (List Row) := do
  let (sql, params) ← simpleQuerySql table_name columns conditions options schema
  d sql params

/-- `SimpleCrudOperations.query_records`. -/
def simpleQueryRecords (d : Driver) (elapsed : Nat) (table_name : String)
    (columns : List String) (conditions : List QueryCondition)
    (options : Option QueryOptions) (schema : String) : QueryResult :=
  match simpleQueryRecordsBody d table_name columns conditions options schema with
  | .ok result =>
    let data := result.map Row.cells
    { success := true
      message := "Successfully queried " ++ toString data.length ++
        " record(s) from " ++ schema ++ "." ++ table_name
      data := data
      columns := headKeys data
      total_count := some data.length
      execution_time_ms := some elapsed }
  | .error e =>
    { success := false
      message := "Failed to query records: " ++ e
      data := []
      execution_time_ms := some elapsed }

/-- The `try` block of `vector_similarity_search`. -/
def vectorSimilaritySearchBody (d : Driver) (table_name schema vector_column : String)
    (search_options : Option VectorSearchOptions)
    (additional_columns : List String) : Except String (List Row) := do
  let (sql, params) ← vectorSimilaritySearchSql table_name schema vector_column
    search_options additional_columns
  d sql params

/-- `VectorOperations.vector_similarity_search`. -/
def vectorSimilaritySearch (d : Driver) (elapsed : Nat)
    (table_name schema vector_column : String)
    (search_options : Option VectorSearchOptions)
    (additional_columns : List String) : QueryResult :=
  match vectorSimilaritySearchBody d table_name schema vector_column
      search_options additional_columns with
  | .ok result =>
    let data := result.map Row.cells
    { success := true
      message := "Vector similarity search completed, found " ++
        toString data.length ++ " results"
      data := data
      columns := headKeys data
      total_count := some data.length
      execution_time_ms := some elapsed }
  | .error e =>
    { success := false
      message := "Vector similarity search failed: " ++ e
      data := []
      execution_time_ms := some elapsed }

/-- The index name used by `create_vector_index`:
`idx_<table>_<column>_<method>` when the caller omits one. -/
def vectorIndexName (table_name vector_column index_type : String)
    (index_name : Option String) : String :=
  match index_name with
  | some n => n
  | none => "idx_" ++ table_name ++ "_" ++ vector_column ++ "_" ++ index_type

/-- The `try` block of `create_vector_index`. -/
def createVectorIndexBody (d : Driver) (table_name schema vector_column : String)
    (index_name : Option String) (index_type : String)
    (index_options : List (String × Value)) : Except String Unit := do
  let sql := createVectorIndexSql table_name schema vector_column index_name
    index_type index_options
  let _ ← d sql []
  return ()

/-- `VectorOperations.create_vector_index`. -/
def createVectorIndex (d : Driver) (elapsed : Nat)
    (table_name schema vector_column : String) (index_name : Option String)
    (index_type : String) (index_options : List (String × Value)) :
    OperationResult :=
  match createVectorIndexBody d table_name schema vector_column index_name
      index_type index_options with
  | .ok _ =>
    { success := true
      message := "Vector index " ++
        vectorIndexName table_name vector_column index_type index_name ++
        " created successfully using " ++ index_type
      operation_type := .create
      table_name := schema ++ "." ++ table_name
      execution_time_ms := some elapsed }
  | .error e =>
    { success := false
      message := "Failed to create vector index: " ++ e
      operation_type := .create
      table_name := schema ++ "." ++ table_name
      execution_time_ms := some elapsed }

/-- The `try` block of `optimize_vector_index` (`REINDEX INDEX`). -/
def optimizeVectorIndexBody (d : Driver) (index_name schema : String) :
    Except String Unit := do
  let sql := "REINDEX INDEX " ++ pyIdent schema ++ "." ++ pyIdent index_name
  let _ ← d sql []
  return ()

/-- `VectorOperations.optimize_vector_index`. -/
def optimizeVectorIndex (d : Driver) (elapsed : Nat) (index_name schema : String) :
    OperationResult :=
  match optimizeVectorIndexBody d index_name schema with
  | .ok _ =>
    { success := true
      message := "Vector index " ++ schema ++ "." ++ index_name ++
        " optimized successfully"
      operation_type := .update
      table_name := schema ++ "." ++ index_name
      execution_time_ms := some elapsed }
  | .error e =>
    { success := false
      message := "Failed to optimize vector index: " ++ e
      operation_type := .update
      table_name := schema ++ "." ++ index_name
      execution_time_ms := some elapsed }

/-- The `try` block of `SchemaOperations.create_schema`. -/
def schemaCreateSchemaBody (d : Driver) (schema_name : String)
    (if_not_exists : Bool) : Except String Unit := do
  let sql :=
    if if_not_exists then "CREATE SCHEMA IF NOT EXISTS " ++ sqlIdent schema_name
    else "CREATE SCHEMA " ++ sqlIdent schema_name
  let _ ← d sql []
  return ()

/-- `SchemaOperations.create_schema`. -/
def schemaCreateSchema (d : Driver) (elapsed : Nat) (schema_name : String)
    (if_not_exists : Bool) : OperationResult :=
  match schemaCreateSchemaBody d schema_name if_not_exists with
  | .ok _ =>
    { success := true
      message := "Schema " ++ schema_name ++ " created successfully"
      operation_type := .create
      table_name := schema_name
      execution_time_ms := some elapsed }
  | .error e =>
    { success := false
      message := "Failed to create schema: " ++ e
      operation_type := .create
      table_name := schema_name
      execution_time_ms := some elapsed }

/-- The `try` block of `SchemaOperations.drop_index` (the `"{}"` slot in
the joined parts is filled by the quoted index identifier). -/
def schemaDropIndexBody (d : Driver) (index_name : String)
    (if_exists cascade : Bool) : Except String Unit := do
  let sqlParts := ["DROP INDEX"]
  let sqlParts := if if_exists then sqlParts ++ ["IF EXISTS"] else sqlParts
  let sqlParts := sqlParts ++ [sqlIdent index_name]
  let sqlParts := if cascade then sqlParts ++ ["CASCADE"] else sqlParts
  let sql := String.intercalate " " sqlParts
  let _ ← d sql []
  return ()

/-- `SchemaOperations.drop_index`. -/
def schemaDropIndex (d : Driver) (elapsed : Nat) (index_name : String)
    (if_exists cascade : Bool) : OperationResult :=
  match schemaDropIndexBody d index_name if_exists cascade with
  | .ok _ =>
    { success := true
      message := "Index " ++ index_name ++ " dropped successfully"
      operation_type := .drop
      table_name := index_name
      execution_time_ms := some elapsed }
  | .error e =>
    { success := false
      message := "Failed to drop index: " ++ e
      operation_type := .drop
      table_name := index_name
      execution_time_ms := some elapsed }

/-- The `try` block of `SchemaOperations.create_extension`; the schema
argument is truthy only when it is a non-empty string. -/
def schemaCreateExtensionBody (d : Driver) (extension_name : String)
    (if_not_exists : Bool) (schema : Option String) : Except String Unit := do
  let sqlParts := ["CREATE EXTENSION"]
  let sqlParts := if if_not_exists then sqlParts ++ ["IF NOT EXISTS"] else sqlParts
  let schemaTruthy : Bool :=
    match schema with
    | some s => s != ""
    | none => false
  let sqlParts := sqlParts ++ [sqlIdent extension_name]
  let sqlParts :=
    if schemaTruthy then
      sqlParts ++ ["WITH SCHEMA " ++ sqlIdent ((schema.getD ""))]
    else sqlParts
  let sql := String.intercalate " " sqlParts
  let _ ← d sql []
  return ()

/-- `SchemaOperations.create_extension`. -/
def schemaCreateExtension (d : Driver) (elapsed : Nat) (extension_name : String)
    (if_not_exists : Bool) (schema : Option String) : OperationResult :=
  match schemaCreateExtensionBody d extension_name if_not_exists schema with
  | .ok _ =>
    { success := true
      message := "Extension " ++ extension_name ++ " created successfully"
      operation_type := .create
      table_name := extension_name
      execution_time_ms := some elapsed }
  | .error e =>
    { success := false
      message := "Failed to create extension: " ++ e
      operation_type := .create
      table_name := extension_name
      execution_time_ms := some elapsed }

/-- A driver that answers every call with one row echoing the received
parameter list (used to observe per-call results and their order). -/
def echoDriver : Driver := fun _ params => .ok [⟨[("echo", .list params)]⟩]

/-- A driver whose statements succeed but produce no row set — what the
driver abstraction yields for INSERT/UPDATE/DELETE without RETURNING,
however many table rows the statement modified. -/
def noRowsDriver : Driver := fun _ _ => .ok []

/-- A driver whose every call raises. -/
def failDriver : Driver := fun _ _ => .error "boom"

/-- Spec reading, column clause, `NOT NULL` position. -/
def specNotNullFragment (col : ColumnDefinition) : String :=
  if col.nullable then "" else " NOT NULL"

/-- Spec reading, column clause, `DEFAULT` position: quoted for string
literals, raw for recognized SQL functions, raw text for other values. -/
def specDefaultFragment (col : ColumnDefinition) : String :=
  match col.default with
  | none => ""
  | some (.str s) =>
      if specialFunctions.contains s then " DEFAULT " ++ s
      else " DEFAULT \x27" ++ s ++ "\x27"
  | some v => " DEFAULT " ++ pyStr v

/-- Spec reading, column clause, `PRIMARY KEY` position. -/
def specPrimaryKeyFragment (col : ColumnDefinition) : String :=
  if col.primary_key then " PRIMARY KEY" else ""

/-- Spec reading, column clause, `UNIQUE` position (suppressed on a
primary-key column). -/
def specUniqueFragment (col : ColumnDefinition) : String :=
  if col.unique && ¬ col.primary_key then " UNIQUE" else ""

/-- Spec reading, column clause, trailing `CHECK` position. -/
def specCheckFragment (col : ColumnDefinition) : String :=
  match col.check_constraint with
  | some c => " CHECK (" ++ c ++ ")"
  | none => ""

/-- Concrete mixed condition list exercising all three compiler shapes. -/
def demoMixedConds : List QueryCondition :=
  [{ column := "age", operator := ">", value := .int 25 },
   { column := "id", operator := "IN", value := .list [.int 1, .int 2, .int 3] },
   { column := "email", operator := "IS NULL", value := .null }]

/-- Parameters the mixed condition list compiles to. -/
def demoMixedParams : List Value := [.int 25, .int 1, .int 2, .int 3]

/-- First condition of the `OR`/`AND` demonstration list. -/
def demoOrFirst : QueryCondition :=
  { column := "status", operator := "=", value := .str "active",
    logical_operator := "OR" }

/-- Concrete condition list whose first condition carries `OR` and whose
second carries `AND`, to separate "previous" from "own" connectors. -/
def demoOrConds : List QueryCondition :=
  [demoOrFirst,
   { column := "age", operator := ">", value := .int 30 },
   { column := "name", operator := "LIKE", value := .str "%a%" }]

/-- Emission pieces the `OR`/`AND` list compiles to. -/
def demoOrParts : List String :=
  ["\"status\" = %s", " OR ", "\"age\" > %s", " AND ", "\"name\" LIKE %s"]

/-- An `IN` condition over an empty value sequence. -/
def emptyInCond : QueryCondition :=
  { column := "id", operator := "IN", value := .list [] }

/-- A timestamp column defaulting to the SQL function
`CURRENT_TIMESTAMP` (as `create_vector_table` builds its audit column). -/
def tsColumn : ColumnDefinition :=
  { name := "created_at", data_type := .timestamp, nullable := false,
    default := some (.str "CURRENT_TIMESTAMP") }

/-- A driver that answers every call with the single row
`{id: 1, name: "z"}` — an UPDATE ... RETURNING over one matching row. -/
def oneRowDriver : Driver :=
  fun _ _ => .ok [⟨[("id", .int 1), ("name", .str "z")]⟩]

/-- A small concrete table definition. -/
def demoTable : TableDefinition :=
  { name := "users",
    columns := [{ name := "id", data_type := .serial, nullable := false,
                  primary_key := true }] }

theorem conditionClauseWith_params_length (q : String → String) (c : QueryCondition)
    (cl : String) (ps : List Value)
    (h : conditionClauseWith q c = .ok (cl, ps)) :
    ps.length = conditionParamCount c := by
  simp only [conditionClauseWith, conditionParamCount] at h ⊢
  split_ifs at h ⊢
  · obtain ⟨-, h2⟩ := Prod.mk.inj (Except.ok.inj h)
    rw [← h2]
    rfl
  · cases hv : c.value <;> rw [hv] at h <;> try cases h
    simp [hv]
  · obtain ⟨-, h2⟩ := Prod.mk.inj (Except.ok.inj h)
    rw [← h2]
    rfl

theorem wherePartsAux_params_length (q : String → String) :
    ∀ (conds : List QueryCondition) (prev : QueryCondition) (parts : List String)
      (params : List Value),
      wherePartsAux q prev conds = .ok (parts, params) →
      params.length = (conds.map conditionParamCount).sum := by
  intro conds
  induction conds with
  | nil =>
    intro prev parts params h
    simp only [wherePartsAux] at h
    obtain ⟨-, h2⟩ := Prod.mk.inj (Except.ok.inj h)
    rw [← h2]
    rfl
  | cons c rest ih =>
    intro prev parts params h
    simp only [wherePartsAux] at h
    cases h1 : conditionClauseWith q c with
    | error e => rw [h1] at h; cases h
    | ok clps =>
      obtain ⟨cl, ps⟩ := clps
      rw [h1] at h
      cases h2 : wherePartsAux q c rest with
      | error e => rw [h2] at h; cases h
      | ok tpp =>
        obtain ⟨tailParts, tailParams⟩ := tpp
        rw [h2] at h
        obtain ⟨-, h4⟩ := Prod.mk.inj (Except.ok.inj h)
        rw [← h4]
        simp only [List.length_append, List.map_cons, List.sum_cons]
        rw [conditionClauseWith_params_length q c cl ps h1, ih c tailParts tailParams h2]

theorem wherePartsWith_params_length (q : String → String) :
    ∀ (conds : List QueryCondition) (parts : List String) (params : List Value),
      wherePartsWith q conds = .ok (parts, params) →
      params.length = (conds.map conditionParamCount).sum := by
  intro conds parts params h
  cases conds with
  | nil =>
    simp only [wherePartsWith] at h
    obtain ⟨-, h2⟩ := Prod.mk.inj (Except.ok.inj h)
    rw [← h2]
    rfl
  | cons c rest =>
    simp only [wherePartsWith] at h
    cases h1 : conditionClauseWith q c with
    | error e => rw [h1] at h; cases h
    | ok clps =>
      obtain ⟨cl, ps⟩ := clps
      rw [h1] at h
      cases h2 : wherePartsAux q c rest with
      | error e => rw [h2] at h; cases h
      | ok tpp =>
        obtain ⟨tailParts, tailParams⟩ := tpp
        rw [h2] at h
        obtain ⟨-, h4⟩ := Prod.mk.inj (Except.ok.inj h)
        rw [← h4]
        simp only [List.length_append, List.map_cons, List.sum_cons]
        rw [conditionClauseWith_params_length q c cl ps h1,
          wherePartsAux_params_length q rest c tailParts tailParams h2]

/-- C2: for every condition list the compiler accepts, the positional
parameter list has length equal to the sum over the conditions of: 0 for
an IS NULL / IS NOT NULL check, the length of the value sequence for an
IN / NOT IN condition, and 1 for every other operator; and the empty
condition list compiles to no fragment and zero parameters. -/
theorem c2_where_clause_param_count :
    buildWhereClause [] = .ok (none, []) ∧
    ∀ (conds : List QueryCondition) (frag : Option String) (params : List Value),
      buildWhereClause conds = .ok (frag, params) →
      params.length = (conds.map conditionParamCount).sum := by
  constructor
  · rfl
  · intro conds frag params h
    cases conds with
    | nil =>
      simp only [buildWhereClause, List.isEmpty_nil, if_true] at h
      obtain ⟨-, h2⟩ := Prod.mk.inj (Except.ok.inj h)
      rw [← h2]
      rfl
    | cons c rest =>
      simp only [buildWhereClause, List.isEmpty_cons, if_false] at h
      cases h1 : wherePartsWith sqlIdent (c :: rest) with
      | error e => rw [h1] at h; cases h
      | ok pp =>
        obtain ⟨parts, params2⟩ := pp
        rw [h1] at h
        obtain ⟨-, h2⟩ := Prod.mk.inj (Except.ok.inj h)
        rw [← h2]
        exact wherePartsWith_params_length sqlIdent (c :: rest) parts params2 h1

/-- C2 witness: a concrete mixed condition list (comparison, IN over
three values, NULL check) compiles with 1 + 3 + 0 parameters. -/
theorem c2_where_clause_param_count_witness :
    buildWhereClause demoMixedConds =
      .ok (some "\"age\" > %s AND \"id\" IN (%s, %s, %s) AND \"email\" IS NULL",
        demoMixedParams) ∧
    (demoMixedParams.length = 4 ∧ (4 : Nat) = 1 + 3 + 0) ∧
    demoMixedParams.length = (demoMixedConds.map conditionParamCount).sum :=
  ⟨rfl, ⟨rfl, rfl⟩,
    c2_where_clause_param_count.2 demoMixedConds
      (some "\"age\" > %s AND \"id\" IN (%s, %s, %s) AND \"email\" IS NULL")
      demoMixedParams (by rfl)⟩

theorem wherePartsAux_sep_get (q : String → String) :
    ∀ (conds : List QueryCondition) (prev : QueryCondition) (parts : List String)
      (params : List Value) (j : Nat) (cprev : QueryCondition),
      wherePartsAux q prev conds = .ok (parts, params) →
      j < conds.length → (prev :: conds)[j]? = some cprev →
      parts[2 * j]? = some (" " ++ strUpper cprev.logical_operator ++ " ") := by
  intro conds
  induction conds with
  | nil =>
    intro prev parts params j cprev _ hj _
    exact absurd hj (by simp)
  | cons c rest ih =>
    intro prev parts params j cprev h hj hg
    simp only [wherePartsAux] at h
    cases h1 : conditionClauseWith q c with
    | error e => rw [h1] at h; cases h
    | ok clps =>
      obtain ⟨cl, ps⟩ := clps
      rw [h1] at h
      cases h2 : wherePartsAux q c rest with
      | error e => rw [h2] at h; cases h
      | ok tpp =>
        obtain ⟨tailParts, tailParams⟩ := tpp
        rw [h2] at h
        obtain ⟨h3, -⟩ := Prod.mk.inj (Except.ok.inj h)
        rw [← h3]
        cases j with
        | zero =>
          simp only [List.getElem?_cons_zero, Option.some.injEq] at hg
          rw [← hg]
          rfl
        | succ jj =>
          have harith : 2 * (jj + 1) = (2 * jj + 1) + 1 := by omega
          rw [harith]
          simp only [List.getElem?_cons_succ]
          exact ih c tailParts tailParams jj cprev h2 (by simpa using hj)
            (by simpa using hg)

/-- C3: in the compiled fragment of a condition list with at least two
conditions, the connector emitted just before condition `i` (the piece at
position `2*i - 1` of the emission list, which the builder joins into the
final text) is the uppercased `logical_operator` of the condition at
index `i - 1`, the previous condition — not that of condition `i`. -/
theorem c3_connector_from_previous (q : String → String)
    (conds : List QueryCondition) (parts : List String) (params : List Value)
    (i : Nat) (cprev : QueryCondition)
    (h : wherePartsWith q conds = .ok (parts, params))
    (hi : 0 < i) (hlen : i < conds.length)
    (hget : conds[i - 1]? = some cprev) :
    parts[2 * i - 1]? = some (" " ++ strUpper cprev.logical_operator ++ " ") := by
  cases conds with
  | nil => exact absurd hlen (by simp)
  | cons c rest =>
    simp only [wherePartsWith] at h
    cases h1 : conditionClauseWith q c with
    | error e => rw [h1] at h; cases h
    | ok clps =>
      obtain ⟨cl, ps⟩ := clps
      rw [h1] at h
      cases h2 : wherePartsAux q c rest with
      | error e => rw [h2] at h; cases h
      | ok tpp =>
        obtain ⟨tailParts, tailParams⟩ := tpp
        rw [h2] at h
        obtain ⟨h3, -⟩ := Prod.mk.inj (Except.ok.inj h)
        rw [← h3]
        cases i with
        | zero => exact absurd hi (by omega)
        | succ ii =>
          have harith : 2 * (ii + 1) - 1 = 2 * ii + 1 := by omega
          rw [harith]
          simp only [List.getElem?_cons_succ]
          exact wherePartsAux_sep_get q rest c tailParts tailParams ii cprev h2
            (by simpa using hlen) (by simpa using hget)

/-- C3 witness: for `[status = ? (OR), age > ? (AND), name LIKE ?]` the
connector before the second condition is `OR` (the first condition's
operator, not the second condition's `AND`). -/
theorem c3_connector_from_previous_witness :
    wherePartsWith sqlIdent demoOrConds =
      .ok (demoOrParts, [.str "active", .int 30, .str "%a%"]) ∧
    (0 : Nat) < 1 ∧ (1 : Nat) < demoOrConds.length ∧
    demoOrConds[1 - 1]? = some demoOrFirst ∧
    (" OR " : String) ≠ " AND " ∧
    demoOrParts[2 * 1 - 1]? = some (" " ++ strUpper demoOrFirst.logical_operator ++ " ") :=
  ⟨by rfl, Nat.one_pos, by decide, by rfl, by decide,
    c3_connector_from_previous sqlIdent demoOrConds demoOrParts
      [.str "active", .int 30, .str "%a%"] 1 demoOrFirst
      (by rfl) Nat.one_pos (by decide) (by rfl)⟩

/-- C9: for every vector column and query vector the distance expression
is exactly `"<col>" <op> \x27[<components>]\x27::vector` with `<=>` for
cosine, `<->` for euclidean and `<#>` for inner_product, and any other
distance-function string raises a `ValueError` instead of falling back
to a default operator. -/
theorem c9_distance_expression (vector_column : String) (search_vector : List String) :
    getDistanceExpression vector_column search_vector "cosine" =
      .ok ("\"" ++ vector_column ++ "\"" ++ " <=> \x27" ++
        ("[" ++ String.intercalate "," search_vector ++ "]") ++ "\x27::vector") ∧
    getDistanceExpression vector_column search_vector "euclidean" =
      .ok ("\"" ++ vector_column ++ "\"" ++ " <-> \x27" ++
        ("[" ++ String.intercalate "," search_vector ++ "]") ++ "\x27::vector") ∧
    getDistanceExpression vector_column search_vector "inner_product" =
      .ok ("\"" ++ vector_column ++ "\"" ++ " <#> \x27" ++
        ("[" ++ String.intercalate "," search_vector ++ "]") ++ "\x27::vector") ∧
    ∀ f : String, f ≠ "cosine" → f ≠ "euclidean" → f ≠ "inner_product" →
      getDistanceExpression vector_column search_vector f =
        .error ("Unsupported distance function: " ++ f) := by
  refine ⟨?_, ?_, ?_, ?_⟩
  · simp [getDistanceExpression, pyIdent, String.append_assoc]
  · simp [getDistanceExpression, pyIdent, String.append_assoc]
  · simp [getDistanceExpression, pyIdent, String.append_assoc]
  · intro f h1 h2 h3
    simp [getDistanceExpression, h1, h2, h3]

/-- C9 witness: the cosine expression at a concrete column and vector,
and the rejection of the unsupported function `manhattan`. -/
theorem c9_distance_expression_witness :
    ("manhattan" : String) ≠ "cosine" ∧ ("manhattan" : String) ≠ "euclidean" ∧
    ("manhattan" : String) ≠ "inner_product" ∧
    getDistanceExpression "embedding" ["1.0", "2.5"] "manhattan" =
      .error "Unsupported distance function: manhattan" ∧
    getDistanceExpression "embedding" ["1.0", "2.5"] "cosine" =
      .ok "\"embedding\" <=> \x27[1.0,2.5]\x27::vector" :=
  ⟨by decide, by decide, by decide,
    (c9_distance_expression "embedding" ["1.0", "2.5"]).2.2.2 "manhattan"
      (by decide) (by decide) (by decide),
    (c9_distance_expression "embedding" ["1.0", "2.5"]).1⟩

/-- C5: an IN condition over an empty sequence is not rejected — the
compiler accepts it (`.ok`, no validation error), builds the fragment
`"id" IN ()` with zero parameters, `_build_delete_sql` embeds it in the
DELETE statement, and `delete_records` submits that statement to the
driver and reports whatever the driver answers (success here), so the
only possible failure is the driver's own syntax error, not a validation
failure produced before the statement reaches the driver. -/
theorem c5_empty_in_compiled_not_rejected :
    buildWhereClause [emptyInCond] = .ok (some "\"id\" IN ()", []) ∧
    buildDeleteSql "users" [emptyInCond] "public" [] =
      .ok ("DELETE FROM \"public\".\"users\" WHERE \"id\" IN ()", []) ∧
    crudDeleteRecordsBody echoDriver "users" [emptyInCond] "public" [] =
      .ok [⟨[("echo", .list [])]⟩] ∧
    (crudDeleteRecords echoDriver 2 "users" [emptyInCond] "public" []).success = true :=
  ⟨rfl, rfl, rfl, rfl⟩

/-- C6: the parameterized SELECT builder does pass LIMIT and OFFSET
through the parameter channel, but `simple_crud.query_records` and the
vector similarity search interpolate the numeric limit directly into the
SQL text, leaving the parameter list empty — the value does not travel
as a parameter. -/
theorem c6_limit_interpolated_into_sql :
    buildSelectSql "users" [] [] (some { limit := some 5, offset := some 3 }) "public" =
      .ok ("SELECT * FROM \"public\".\"users\" LIMIT %s OFFSET %s",
        [.int 5, .int 3]) ∧
    simpleQuerySql "users" [] [] (some { limit := some 5 }) "public" =
      .ok ("SELECT * FROM \"public\".\"users\" LIMIT 5", []) ∧
    simpleQuerySql "users" [] [] (some { offset := some 3 }) "public" =
      .ok ("SELECT * FROM \"public\".\"users\" OFFSET 3", []) ∧
    vectorSimilaritySearchSql "docs" "public" "embedding"
        (some { vector := ["0.1", "0.2"], limit := 5 }) [] =
      .ok ("SELECT \"id\", \"embedding\" <=> \x27[0.1,0.2]\x27::vector AS distance FROM \"public\".\"docs\" ORDER BY \"embedding\" <=> \x27[0.1,0.2]\x27::vector LIMIT 5",
        []) :=
  ⟨rfl, rfl, rfl, rfl⟩

/-- C4: with a driver whose every per-row execution succeeds and returns
one row echoing its parameters, a batch of two records with RETURNING
through `SimpleCrudOperations.insert_records` (the implementation the
server dispatches its insert tool to) yields success, `affected_rows = 2`
and the per-row row sets concatenated in submission order; on the same
input `CrudOperations.insert_records` returns a failure result carrying
the `AttributeError` from calling `.as_string(...)` on the plain `str`
its `_build_insert_sql` returns, before any row is executed. -/
theorem c4_batch_insert_returning :
    simpleInsertRecords echoDriver 3 "t" [[("name", .str "a")], [("name", .str "b")]]
        "public" ["id", "name"] =
      { success := true,
        message := "Successfully inserted 2 record(s) into public.t",
        operation_type := .insert,
        table_name := "public.t",
        affected_rows := some 2,
        execution_time_ms := some 3,
        returned_data := [[("echo", .list [.str "a"])], [("echo", .list [.str "b"])]] } ∧
    crudInsertRecords echoDriver 3 "t" [[("name", .str "a")], [("name", .str "b")]]
        "public" ["id", "name"] =
      { success := false,
        message := "Failed to insert records: " ++ strAsStringError,
        operation_type := .insert,
        table_name := "public.t",
        execution_time_ms := some 3 } :=
  ⟨rfl, rfl⟩

/-- C7 counterexample: the claim quantifies over every CREATE TABLE
renderer, but `CrudOperations._build_create_table_sql` single-quotes the
recognized SQL function `CURRENT_TIMESTAMP` like any other string
default, so its generated clause does not contain the function unquoted. -/
theorem c7_crud_builder_quotes_functions :
    crudColumnClause tsColumn =
      .ok "\"created_at\" timestamp NOT NULL DEFAULT \x27CURRENT_TIMESTAMP\x27" ∧
    crudCreateTableSql { name := "t", columns := [tsColumn] } =
      .ok "CREATE TABLE \"public\".\"t\" (\"created_at\" timestamp NOT NULL DEFAULT \x27CURRENT_TIMESTAMP\x27)" :=
  ⟨rfl, rfl⟩

/-- C7 amended: in the simple builders (`simple_crud.create_table` and
the identical loop of `create_vector_table`) the column clause is the
name and type followed by exactly the NOT NULL, DEFAULT, PRIMARY KEY,
UNIQUE, CHECK fragments in that fixed order, with a recognized SQL
function default rendered raw and every other string default
single-quoted; the parameterized `CrudOperations` table builder instead
quotes every string default, functions included
(`c7_crud_builder_quotes_functions`). -/
theorem c7_simple_default_rendering (col : ColumnDefinition) (t : String)
    (h : formatDataType col = .ok t) :
    simpleColumnClause col =
      .ok (pyIdent col.name ++ " " ++ t ++ specNotNullFragment col ++
        specDefaultFragment col ++ specPrimaryKeyFragment col ++
        specUniqueFragment col ++ specCheckFragment col) := by
  simp only [simpleColumnClause, h]
  simp only [specNotNullFragment, specDefaultFragment, specPrimaryKeyFragment,
    specUniqueFragment, specCheckFragment, renderDefaultSimple]
  cases hnul : col.nullable <;> cases hpk : col.primary_key <;>
    cases huniq : col.unique <;> cases hchk : col.check_constraint <;>
    cases hd : col.default <;>
    simp [String.append_assoc, String.append_empty] <;>
    (try cases hd2 : ‹Value› ) <;>
    (apply String.ext) <;>
    simp [String.data_append, List.append_assoc]

/-- C7 witness: the amended rendering at a concrete column with a
special-function default. -/
theorem c7_simple_default_rendering_witness :
    formatDataType tsColumn = .ok "timestamp" ∧
    simpleColumnClause tsColumn =
      .ok (pyIdent tsColumn.name ++ " " ++ "timestamp" ++
        specNotNullFragment tsColumn ++ specDefaultFragment tsColumn ++
        specPrimaryKeyFragment tsColumn ++ specUniqueFragment tsColumn ++
        specCheckFragment tsColumn) ∧
    simpleColumnClause tsColumn =
      .ok "\"created_at\" timestamp NOT NULL DEFAULT CURRENT_TIMESTAMP" :=
  ⟨rfl, c7_simple_default_rendering tsColumn "timestamp" rfl, by rfl⟩

/-- C8 counterexample: an UPDATE whose conditions match exactly one row
but without RETURNING — the driver abstraction then yields no row set —
reports success with `affected_rows = 0`, not 1: the operation counts
returned rows, not modified rows. -/
theorem c8_update_without_returning_reports_zero :
    crudUpdateRecords noRowsDriver 4 "users" [("name", .str "z")]
        [{ column := "id", operator := "=", value := .int 1 }] "public" [] =
      { success := true,
        message := "Successfully updated 0 record(s) in public.users",
        operation_type := .update,
        table_name := "public.users",
        affected_rows := some 0,
        execution_time_ms := some 4,
        returned_data := [] } ∧
    (some (0 : Nat)) ≠ some 1 :=
  ⟨rfl, by decide⟩

/-- C8 amended: `update_records` reports `affected_rows` equal to the
number of rows the driver returned for the statement (and those rows as
`returned_data`); it equals 1 exactly when RETURNING was requested over a
single matched row, and it is 0 whenever the driver returns no row set,
as for an UPDATE without RETURNING. -/
theorem c8_update_affected_rows_from_returned (d : Driver) (elapsed : Nat)
    (table_name : String) (data : Cells) (conditions : List QueryCondition)
    (schema : String) (returning_columns : List String) (rows : List Row)
    (h : crudUpdateRecordsBody d table_name data conditions schema
      returning_columns = .ok rows) :
    (crudUpdateRecords d elapsed table_name data conditions schema
      returning_columns).success = true ∧
    (crudUpdateRecords d elapsed table_name data conditions schema
      returning_columns).affected_rows = some rows.length ∧
    (crudUpdateRecords d elapsed table_name data conditions schema
      returning_columns).returned_data = rows.map Row.cells := by
  simp [crudUpdateRecords, h]

/-- C8 witness: with RETURNING requested and a driver returning the one
updated row, `affected_rows = 1` and the row is in `returned_data`. -/
theorem c8_update_affected_rows_from_returned_witness :
    crudUpdateRecordsBody oneRowDriver "users" [("name", .str "z")]
        [{ column := "id", operator := "=", value := .int 1 }] "public"
        ["id", "name"] = .ok [⟨[("id", .int 1), ("name", .str "z")]⟩] ∧
    (crudUpdateRecords oneRowDriver 4 "users" [("name", .str "z")]
        [{ column := "id", operator := "=", value := .int 1 }] "public"
        ["id", "name"]).success = true ∧
    (crudUpdateRecords oneRowDriver 4 "users" [("name", .str "z")]
        [{ column := "id", operator := "=", value := .int 1 }] "public"
        ["id", "name"]).affected_rows = some 1 ∧
    (crudUpdateRecords oneRowDriver 4 "users" [("name", .str "z")]
        [{ column := "id", operator := "=", value := .int 1 }] "public"
        ["id", "name"]).returned_data = [[("id", .int 1), ("name", .str "z")]] := by
  refine ⟨by rfl, ?_⟩
  have h := c8_update_affected_rows_from_returned oneRowDriver 4 "users"
    [("name", .str "z")] [{ column := "id", operator := "=", value := .int 1 }]
    "public" ["id", "name"] [⟨[("id", .int 1), ("name", .str "z")]⟩] (by rfl)
  exact ⟨h.1, h.2.1, h.2.2⟩

/-- C10: whenever a read operation reports success, the `QueryResult`
satisfies `total_count = data.length` (the returned page only, capped by
any LIMIT) and `columns` is the key list of the first returned row —
hence the empty list on an empty result set even when an explicit
projection was requested. Holds for `CrudOperations.query_records`,
`simple_crud.query_records` and `vector_similarity_search`. -/
theorem c10_query_total_count_and_columns :
    (∀ (d : Driver) (elapsed : Nat) (table_name : String) (columns : List String)
      (conditions : List QueryCondition) (options : Option QueryOptions)
      (schema : String),
      (crudQueryRecords d elapsed table_name columns conditions options schema).success = true →
      (crudQueryRecords d elapsed table_name columns conditions options schema).total_count =
        some (crudQueryRecords d elapsed table_name columns conditions options schema).data.length ∧
      (crudQueryRecords d elapsed table_name columns conditions options schema).columns =
        headKeys (crudQueryRecords d elapsed table_name columns conditions options schema).data) ∧
    (∀ (d : Driver) (elapsed : Nat) (table_name : String) (columns : List String)
      (conditions : List QueryCondition) (options : Option QueryOptions)
      (schema : String),
      (simpleQueryRecords d elapsed table_name columns conditions options schema).success = true →
      (simpleQueryRecords d elapsed table_name columns conditions options schema).total_count =
        some (simpleQueryRecords d elapsed table_name columns conditions options schema).data.length ∧
      (simpleQueryRecords d elapsed table_name columns conditions options schema).columns =
        headKeys (simpleQueryRecords d elapsed table_name columns conditions options schema).data) ∧
    (∀ (d : Driver) (elapsed : Nat) (table_name schema vector_column : String)
      (search_options : Option VectorSearchOptions) (additional_columns : List String),
      (vectorSimilaritySearch d elapsed table_name schema vector_column
        search_options additional_columns).success = true →
      (vectorSimilaritySearch d elapsed table_name schema vector_column
        search_options additional_columns).total_count =
        some (vectorSimilaritySearch d elapsed table_name schema vector_column
          search_options additional_columns).data.length ∧
      (vectorSimilaritySearch d elapsed table_name schema vector_column
        search_options additional_columns).columns =
        headKeys (vectorSimilaritySearch d elapsed table_name schema vector_column
          search_options additional_columns).data) := by
  refine ⟨?_, ?_, ?_⟩
  · intro d elapsed tn cols conds opts schema hs
    cases h : crudQueryRecordsBody d tn cols conds opts schema with
    | error e => simp [crudQueryRecords, h] at hs
    | ok rows => simp [crudQueryRecords, h]
  · intro d elapsed tn cols conds opts schema hs
    cases h : simpleQueryRecordsBody d tn cols conds opts schema with
    | error e => simp [simpleQueryRecords, h] at hs
    | ok rows => simp [simpleQueryRecords, h]
  · intro d elapsed tn schema vc so add hs
    cases h : vectorSimilaritySearchBody d tn schema vc so add with
    | error e => simp [vectorSimilaritySearch, h] at hs
    | ok rows => simp [vectorSimilaritySearch, h]

/-- C10 witness: an empty result set under an explicit two-column
projection yields `columns = []` and `total_count = 0`. -/
theorem c10_query_total_count_and_columns_witness :
    (crudQueryRecords noRowsDriver 5 "users" ["id", "name"] [] none "public").success = true ∧
    (crudQueryRecords noRowsDriver 5 "users" ["id", "name"] [] none "public").total_count =
      some (crudQueryRecords noRowsDriver 5 "users" ["id", "name"] [] none "public").data.length ∧
    (crudQueryRecords noRowsDriver 5 "users" ["id", "name"] [] none "public").columns =
      headKeys (crudQueryRecords noRowsDriver 5 "users" ["id", "name"] [] none "public").data ∧
    (crudQueryRecords noRowsDriver 5 "users" ["id", "name"] [] none "public").columns = [] ∧
    (crudQueryRecords noRowsDriver 5 "users" ["id", "name"] [] none "public").total_count = some 0 := by
  have h := c10_query_total_count_and_columns.1 noRowsDriver 5 "users"
    ["id", "name"] [] none "public" (by rfl)
  exact ⟨by rfl, h.1, h.2, by rfl, by rfl⟩

/-- C1: the exception boundary of every embedded public operation
(`create_table`, `insert_records`, `update_records`, `delete_records`,
`query_records` in both CRUD variants, the schema / index / extension
operations, and the vector search and vector index operations): the
result always carries the elapsed milliseconds, and whenever the `try`
body raises `e`, the operation returns — instead of propagating — a
result with `success = false` whose message is the operation's failure
prefix followed by the exception text `e`. -/
theorem c1_exception_boundary :
    (∀ (d : Driver) (elapsed : Nat) (tdef : TableDefinition),
      (simpleCreateTable d elapsed tdef).execution_time_ms = some elapsed ∧
      ∀ e, simpleCreateTableBody d tdef = .error e →
        (simpleCreateTable d elapsed tdef).success = false ∧
        (simpleCreateTable d elapsed tdef).message = "Failed to create table: " ++ e) ∧
    (∀ (d : Driver) (elapsed : Nat) (tdef : TableDefinition),
      (crudCreateTable d elapsed tdef).execution_time_ms = some elapsed ∧
      ∀ e, crudCreateTableBody d tdef = .error e →
        (crudCreateTable d elapsed tdef).success = false ∧
        (crudCreateTable d elapsed tdef).message = "Failed to create table: " ++ e) ∧
    (∀ (d : Driver) (elapsed : Nat) (tn : String) (data : List Cells)
      (schema : String) (rc : List String),
      (simpleInsertRecords d elapsed tn data schema rc).execution_time_ms = some elapsed ∧
      ∀ e, simpleInsertRecordsBody d tn data schema rc = .error e →
        (simpleInsertRecords d elapsed tn data schema rc).success = false ∧
        (simpleInsertRecords d elapsed tn data schema rc).message =
          "Failed to insert records: " ++ e) ∧
    (∀ (d : Driver) (elapsed : Nat) (tn : String) (data : List Cells)
      (schema : String) (rc : List String),
      (crudInsertRecords d elapsed tn data schema rc).execution_time_ms = some elapsed ∧
      ∀ e, crudInsertRecordsBody d tn data schema rc = .error e →
        (crudInsertRecords d elapsed tn data schema rc).success = false ∧
        (crudInsertRecords d elapsed tn data schema rc).message =
          "Failed to insert records: " ++ e) ∧
    (∀ (d : Driver) (elapsed : Nat) (tn : String) (data : Cells)
      (conds : List QueryCondition) (schema : String) (rc : List String),
      (crudUpdateRecords d elapsed tn data conds schema rc).execution_time_ms = some elapsed ∧
      ∀ e, crudUpdateRecordsBody d tn data conds schema rc = .error e →
        (crudUpdateRecords d elapsed tn data conds schema rc).success = false ∧
        (crudUpdateRecords d elapsed tn data conds schema rc).message =
          "Failed to update records: " ++ e) ∧
    (∀ (d : Driver) (elapsed : Nat) (tn : String)
      (conds : List QueryCondition) (schema : String) (rc : List String),
      (crudDeleteRecords d elapsed tn conds schema rc).execution_time_ms = some elapsed ∧
      ∀ e, crudDeleteRecordsBody d tn conds schema rc = .error e →
        (crudDeleteRecords d elapsed tn conds schema rc).success = false ∧
        (crudDeleteRecords d elapsed tn conds schema rc).message =
          "Failed to delete records: " ++ e) ∧
    (∀ (d : Driver) (elapsed : Nat) (tn : String) (cols : List String)
      (conds : List QueryCondition) (opts : Option QueryOptions) (schema : String),
      (crudQueryRecords d elapsed tn cols conds opts schema).execution_time_ms = some elapsed ∧
      ∀ e, crudQueryRecordsBody d tn cols conds opts schema = .error e →
        (crudQueryRecords d elapsed tn cols conds opts schema).success = false ∧
        (crudQueryRecords d elapsed tn cols conds opts schema).message =
          "Failed to query records: " ++ e) ∧
    (∀ (d : Driver) (elapsed : Nat) (tn : String) (cols : List String)
      (conds : List QueryCondition) (opts : Option QueryOptions) (schema : String),
      (simpleQueryRecords d elapsed tn cols conds opts schema).execution_time_ms = some elapsed ∧
      ∀ e, simpleQueryRecordsBody d tn cols conds opts schema = .error e →
        (simpleQueryRecords d elapsed tn cols conds opts schema).success = false ∧
        (simpleQueryRecords d elapsed tn cols conds opts schema).message =
          "Failed to query records: " ++ e) ∧
    (∀ (d : Driver) (elapsed : Nat) (tn schema vc : String)
      (so : Option VectorSearchOptions) (add : List String),
      (vectorSimilaritySearch d elapsed tn schema vc so add).execution_time_ms = some elapsed ∧
      ∀ e, vectorSimilaritySearchBody d tn schema vc so add = .error e →
        (vectorSimilaritySearch d elapsed tn schema vc so add).success = false ∧
        (vectorSimilaritySearch d elapsed tn schema vc so add).message =
          "Vector similarity search failed: " ++ e) ∧
    (∀ (d : Driver) (elapsed : Nat) (tn schema vc : String) (iname : Option String)
      (itype : String) (iopts : List (String × Value)),
      (createVectorIndex d elapsed tn schema vc iname itype iopts).execution_time_ms = some elapsed ∧
      ∀ e, createVectorIndexBody d tn schema vc iname itype iopts = .error e →
        (createVectorIndex d elapsed tn schema vc iname itype iopts).success = false ∧
        (createVectorIndex d elapsed tn schema vc iname itype iopts).message =
          "Failed to create vector index: " ++ e) ∧
    (∀ (d : Driver) (elapsed : Nat) (iname schema : String),
      (optimizeVectorIndex d elapsed iname schema).execution_time_ms = some elapsed ∧
      ∀ e, optimizeVectorIndexBody d iname schema = .error e →
        (optimizeVectorIndex d elapsed iname schema).success = false ∧
        (optimizeVectorIndex d elapsed iname schema).message =
          "Failed to optimize vector index: " ++ e) ∧
    (∀ (d : Driver) (elapsed : Nat) (sname : String) (ine : Bool),
      (schemaCreateSchema d elapsed sname ine).execution_time_ms = some elapsed ∧
      ∀ e, schemaCreateSchemaBody d sname ine = .error e →
        (schemaCreateSchema d elapsed sname ine).success = false ∧
        (schemaCreateSchema d elapsed sname ine).message =
          "Failed to create schema: " ++ e) ∧
    (∀ (d : Driver) (elapsed : Nat) (iname : String) (ife cas : Bool),
      (schemaDropIndex d elapsed iname ife cas).execution_time_ms = some elapsed ∧
      ∀ e, schemaDropIndexBody d iname ife cas = .error e →
        (schemaDropIndex d elapsed iname ife cas).success = false ∧
        (schemaDropIndex d elapsed iname ife cas).message =
          "Failed to drop index: " ++ e) ∧
    (∀ (d : Driver) (elapsed : Nat) (ename : String) (ine : Bool)
      (schema : Option String),
      (schemaCreateExtension d elapsed ename ine schema).execution_time_ms = some elapsed ∧
      ∀ e, schemaCreateExtensionBody d ename ine schema = .error e →
        (schemaCreateExtension d elapsed ename ine schema).success = false ∧
        (schemaCreateExtension d elapsed ename ine schema).message =
          "Failed to create extension: " ++ e) := by
  refine ⟨?_, ?_, ?_, ?_, ?_, ?_, ?_, ?_, ?_, ?_, ?_, ?_, ?_, ?_⟩
  · intro d elapsed tdef
    refine ⟨?_, fun e he => ?_⟩
    · cases h : simpleCreateTableBody d tdef <;> simp [simpleCreateTable, h]
    · simp [simpleCreateTable, he]
  · intro d elapsed tdef
    refine ⟨?_, fun e he => ?_⟩
    · cases h : crudCreateTableBody d tdef <;> simp [crudCreateTable, h]
    · simp [crudCreateTable, he]
  · intro d elapsed tn data schema rc
    refine ⟨?_, fun e he => ?_⟩
    · cases h : simpleInsertRecordsBody d tn data schema rc <;>
        simp [simpleInsertRecords, h]
    · simp [simpleInsertRecords, he]
  · intro d elapsed tn data schema rc
    refine ⟨?_, fun e he => ?_⟩
    · cases h : crudInsertRecordsBody d tn data schema rc <;>
        simp [crudInsertRecords, h]
    · simp [crudInsertRecords, he]
  · intro d elapsed tn data conds schema rc
    refine ⟨?_, fun e he => ?_⟩
    · cases h : crudUpdateRecordsBody d tn data conds schema rc <;>
        simp [crudUpdateRecords, h]
    · simp [crudUpdateRecords, he]
  · intro d elapsed tn conds schema rc
    refine ⟨?_, fun e he => ?_⟩
    · cases h : crudDeleteRecordsBody d tn conds schema rc <;>
        simp [crudDeleteRecords, h]
    · simp [crudDeleteRecords, he]
  · intro d elapsed tn cols conds opts schema
    refine ⟨?_, fun e he => ?_⟩
    · cases h : crudQueryRecordsBody d tn cols conds opts schema <;>
        simp [crudQueryRecords, h]
    · simp [crudQueryRecords, he]
  · intro d elapsed tn cols conds opts schema
    refine ⟨?_, fun e he => ?_⟩
    · cases h : simpleQueryRecordsBody d tn cols conds opts schema <;>
        simp [simpleQueryRecords, h]
    · simp [simpleQueryRecords, he]
  · intro d elapsed tn schema vc so add
    refine ⟨?_, fun e he => ?_⟩
    · cases h : vectorSimilaritySearchBody d tn schema vc so add <;>
        simp [vectorSimilaritySearch, h]
    · simp [vectorSimilaritySearch, he]
  · intro d elapsed tn schema vc iname itype iopts
    refine ⟨?_, fun e he => ?_⟩
    · cases h : createVectorIndexBody d tn schema vc iname itype iopts <;>
        simp [createVectorIndex, h]
    · simp [createVectorIndex, he]
  · intro d elapsed iname schema
    refine ⟨?_, fun e he => ?_⟩
    · cases h : optimizeVectorIndexBody d iname schema <;>
        simp [optimizeVectorIndex, h]
    · simp [optimizeVectorIndex, he]
  · intro d elapsed sname ine
    refine ⟨?_, fun e he => ?_⟩
    · cases h : schemaCreateSchemaBody d sname ine <;> simp [schemaCreateSchema, h]
    · simp [schemaCreateSchema, he]
  · intro d elapsed iname ife cas
    refine ⟨?_, fun e he => ?_⟩
    · cases h : schemaDropIndexBody d iname ife cas <;> simp [schemaDropIndex, h]
    · simp [schemaDropIndex, he]
  · intro d elapsed ename ine schema
    refine ⟨?_, fun e he => ?_⟩
    · cases h : schemaCreateExtensionBody d ename ine schema <;>
        simp [schemaCreateExtension, h]
    · simp [schemaCreateExtension, he]

/-- C1 witness: a concrete table creation against a driver that raises
`boom` returns the failure result with the prefixed message and the
elapsed time, instead of propagating the exception. -/
theorem c1_exception_boundary_witness :
    simpleCreateTableBody failDriver demoTable = .error "boom" ∧
    (simpleCreateTable failDriver 7 demoTable).execution_time_ms = some 7 ∧
    (simpleCreateTable failDriver 7 demoTable).success = false ∧
    (simpleCreateTable failDriver 7 demoTable).message =
      "Failed to create table: " ++ "boom" := by
  have h := c1_exception_boundary.1 failDriver 7 demoTable
  exact ⟨by rfl, h.1, (h.2 "boom" (by rfl)).1, (h.2 "boom" (by rfl)).2⟩

end PostgresMcp
